import Mathlib

/-!
Shallow embedding of `src/nasa_data_retrieval.py` (NASA DONKI CME/GST
pipeline).  Python floats are modelled by `FloatVal` (NaN / signed
infinity / exact rational), duck-typed JSON scalars by `PyVal`,
`pandas` timestamps by `Option Int` (seconds; `Option.none` is `NaT`),
and raising code by `Except PyErr`.  String-to-float conversion models
Python's `float(str)` grammar on sign / inf / nan / decimal mantissa
with optional exponent; timestamp parsing models `pd.to_datetime` on
the ISO `YYYY-MM-DD[THH:MM[:SS]][Z]` forms the DONKI feed uses.
-/

namespace NasaDonki

/-- A Python float value: NaN, a signed infinity, or a finite value
(held exactly as a rational). -/
inductive FloatVal where
  | nan : FloatVal
  | inf (neg : Bool) : FloatVal
  | num (q : Rat) : FloatVal
deriving DecidableEq, Repr

/-- A duck-typed Python/JSON scalar as it appears in raw DONKI records. -/
inductive PyVal where
  | vnone : PyVal
  | vnum (f : FloatVal) : PyVal
  | vstr (s : String) : PyVal
  | vbool (b : Bool) : PyVal
  | vlist : PyVal
  | vdict : PyVal
deriving DecidableEq, Repr

/-- The Python exceptions the embedded pipeline code can raise. -/
inductive PyErr where
  | typeError : PyErr
  | valueError : PyErr
  | indexError : PyErr
  | keyError (col : String) : PyErr
  | dateParseError : PyErr
deriving DecidableEq, Repr

/-- Value of a string of decimal digits. -/
def digitsToNat (cs : List Char) : Nat :=
  cs.foldl (fun a c => a * 10 + (c.toNat - 48)) 0

/-- Split a character list into its leading digits and the rest. -/
def splitDigits (cs : List Char) : List Char × List Char :=
  (cs.takeWhile Char.isDigit, cs.dropWhile Char.isDigit)

/-- Parse an unsigned decimal mantissa `digits[.digits]` or `.digits`,
returning its value and the unconsumed input. -/
def parseMantissa (cs : List Char) : Option (Rat × List Char) :=
  let p := splitDigits cs
  match p.2 with
  | '.' :: r2 =>
      let q := splitDigits r2
      if p.1.isEmpty && q.1.isEmpty then Option.none
      else some ((digitsToNat p.1 : Rat) + (digitsToNat q.1 : Rat) / ((10 : Rat) ^ q.1.length), q.2)
  | _ => if p.1.isEmpty then Option.none else some ((digitsToNat p.1 : Rat), p.2)

/-- Parse an optionally signed run of digits. -/
def parseSignedNat (cs : List Char) : Option (Int × List Char) :=
  match cs with
  | '+' :: r =>
      let p := splitDigits r
      if p.1.isEmpty then Option.none else some ((digitsToNat p.1 : Int), p.2)
  | '-' :: r =>
      let p := splitDigits r
      if p.1.isEmpty then Option.none else some (-(digitsToNat p.1 : Int), p.2)
  | r =>
      let p := splitDigits r
      if p.1.isEmpty then Option.none else some ((digitsToNat p.1 : Int), p.2)

/-- Parse the optional exponent part `e[±]digits` (input already lowercased). -/
def parseExponentPart (cs : List Char) : Option (Int × List Char) :=
  match cs with
  | 'e' :: rest => parseSignedNat rest
  | _ => some (0, cs)

/-- Scale a mantissa by a signed power of ten. -/
def applyExp (m : Rat) (e : Int) : Rat :=
  if 0 ≤ e then m * (10 : Rat) ^ e.toNat else m / (10 : Rat) ^ (-e).toNat

/-- The whitespace `float(str)` strips. -/
def isPySpace (c : Char) : Bool :=
  c = ' ' || c = '\t' || c = '\n' || c = '\r' || c = '\x0b' || c = '\x0c'

/-- Strip whitespace from both ends. -/
def trimChars (cs : List Char) : List Char :=
  ((cs.dropWhile isPySpace).reverse.dropWhile isPySpace).reverse

/-- ASCII lowercase of one character. -/
def lowerChar (c : Char) : Char :=
  if 'A' ≤ c && c ≤ 'Z' then Char.ofNat (c.toNat + 32) else c

/-- Python's `float(str)` grammar: optional surrounding whitespace and
sign, then `inf`/`infinity`/`nan` (case-insensitive) or a decimal
mantissa with optional exponent. -/
def pyParseFloat (s : String) : Option FloatVal :=
  let t := (trimChars s.toList).map lowerChar
  let sb : Bool × List Char :=
    match t with
    | '+' :: r => (false, r)
    | '-' :: r => (true, r)
    | r => (false, r)
  if sb.2 = ['i', 'n', 'f'] ∨ sb.2 = ['i', 'n', 'f', 'i', 'n', 'i', 't', 'y'] then
    some (.inf sb.1)
  else if sb.2 = ['n', 'a', 'n'] then some .nan
  else do
    let m ← parseMantissa sb.2
    let e ← parseExponentPart m.2
    if e.2 = [] then
      pure (.num (if sb.1 then -(applyExp m.1 e.1) else applyExp m.1 e.1))
    else Option.none

/-- Python's builtin `float(value)`: numbers and bools convert, strings
go through the float grammar (`ValueError` on failure), `None`, lists
and dicts raise `TypeError`. -/
def float_builtin : PyVal → Except PyErr FloatVal
  | .vnone => .error .typeError
  | .vnum f => .ok f
  | .vbool b => .ok (.num (if b then 1 else 0))
  | .vstr s =>
      match pyParseFloat s with
      | some f => .ok f
      | Option.none => .error .valueError
  | .vlist => .error .typeError
  | .vdict => .error .typeError

/-- `safe_float_convert(value, default=float('nan'))`: `None` maps to the
default, otherwise `float(value)` with conversion failures mapped to the
default. -/
def safe_float_convert (value : PyVal) (default : FloatVal) : FloatVal :=
  if value = .vnone then default
  else
    match float_builtin value with
    | .ok f => f
    | .error _ => default

/-- Civil date to a linear day count (Gregorian calendar, the standard
days-from-civil algorithm); used so that datetime subtraction in the
model agrees with Python's. -/
def daysFromCivil (y m d : Nat) : Int :=
  let yy : Int := if m ≤ 2 then (y : Int) - 1 else (y : Int)
  let era : Int := (if 0 ≤ yy then yy else yy - 399) / 400
  let yoe : Int := yy - era * 400
  let mp : Int := ((m : Int) + 9) % 12
  let doy : Int := (153 * mp + 2) / 5 + (d : Int) - 1
  let doe : Int := yoe * 365 + yoe / 4 - yoe / 100 + doy
  era * 146097 + doe - 719468

/-- Split a character list at a separator character. -/
def splitOnChar (sep : Char) : List Char → List (List Char)
  | [] => [[]]
  | c :: cs =>
      let r := splitOnChar sep cs
      if c = sep then [] :: r
      else
        match r with
        | [] => [[c]]
        | g :: gs => (c :: g) :: gs

/-- A nonempty all-digit field. -/
def parseNatAll (cs : List Char) : Option Nat :=
  if cs ≠ [] ∧ cs.all Char.isDigit then some (digitsToNat cs) else Option.none

/-- Parse `YYYY-MM-DD` to a day count. -/
def parseDate (cs : List Char) : Option Int :=
  match splitOnChar '-' cs with
  | [y, m, d] => do
      let yn ← parseNatAll y
      let mn ← parseNatAll m
      let dn ← parseNatAll d
      if 1 ≤ mn ∧ mn ≤ 12 ∧ 1 ≤ dn ∧ dn ≤ 31 then
        some (daysFromCivil yn mn dn)
      else Option.none
  | _ => Option.none

/-- Parse `HH:MM` or `HH:MM:SS` (optionally suffixed `Z`) to seconds
past midnight. -/
def parseTime (cs : List Char) : Option Nat :=
  let t := if cs.getLast? = some 'Z' then cs.dropLast else cs
  match splitOnChar ':' t with
  | [h, m] => do
      let hn ← parseNatAll h
      let mn ← parseNatAll m
      if hn < 24 ∧ mn < 60 then some (hn * 3600 + mn * 60) else Option.none
  | [h, m, sec] => do
      let hn ← parseNatAll h
      let mn ← parseNatAll m
      let sn ← parseNatAll sec
      if hn < 24 ∧ mn < 60 ∧ sn < 60 then some (hn * 3600 + mn * 60 + sn)
      else Option.none
  | _ => Option.none

/-- `pd.to_datetime` on the ISO timestamp strings the DONKI feed uses,
to seconds on a linear time axis. -/
def parseDatetime (s : String) : Option Int :=
  match splitOnChar 'T' s.toList with
  | [d] => do
      let dd ← parseDate d
      pure (dd * 86400)
  | [d, t] => do
      let dd ← parseDate d
      let tt ← parseTime t
      pure (dd * 86400 + (tt : Int))
  | _ => Option.none

/-- `pd.to_datetime(x)` where `x` may be absent: `None` gives `NaT`
(modelled `Option.none`), an unparsable string raises. -/
def to_datetime_opt : Option String → Except PyErr (Option Int)
  | Option.none => .ok Option.none
  | some s =>
      match parseDatetime s with
      | some t => .ok (some t)
      | Option.none => .error .dateParseError

/-- A Python `datetime.datetime` (naive): the constructor guarantees the
field ranges in `PyDatetime.valid`. -/
structure PyDatetime where
  year : Nat
  month : Nat
  day : Nat
  hour : Nat
  minute : Nat
  second : Nat
deriving DecidableEq, Repr

/-- Length of a month, Gregorian rules. -/
def daysInMonth (y m : Nat) : Nat :=
  if m = 2 then
    if (y % 4 = 0 ∧ y % 100 ≠ 0) ∨ y % 400 = 0 then 29 else 28
  else if m = 4 ∨ m = 6 ∨ m = 9 ∨ m = 11 then 30
  else 31

/-- The field ranges Python's `datetime` constructor enforces. -/
def PyDatetime.valid (t : PyDatetime) : Prop :=
  1 ≤ t.year ∧ t.year ≤ 9999 ∧ 1 ≤ t.month ∧ t.month ≤ 12 ∧
  1 ≤ t.day ∧ t.day ≤ daysInMonth t.year t.month ∧
  t.hour < 24 ∧ t.minute < 60 ∧ t.second < 60

instance (t : PyDatetime) : Decidable t.valid := by
  unfold PyDatetime.valid; infer_instance

/-- A mixed-radix encoding that realises Python's field-lexicographic
datetime comparison for valid field ranges. -/
def PyDatetime.key (t : PyDatetime) : Nat :=
  ((((t.year * 13 + t.month) * 32 + t.day) * 24 + t.hour) * 60 + t.minute) * 60 + t.second

/-- The datetime on the linear seconds axis, for subtraction. -/
def PyDatetime.toSeconds (t : PyDatetime) : Int :=
  daysFromCivil t.year t.month t.day * 86400 +
    ((t.hour * 3600 + t.minute * 60 + t.second : Nat) : Int)

/-- `validate_date_range(start_date, end_date)`: raises `DateRangeError`
(modelled as `Except.error` with the message) when start is after end,
when `(end - start).days > 365` (`timedelta.days` floors), or when the
start year precedes 2010. -/
def validate_date_range (start_date end_date : PyDatetime) : Except String Unit :=
  if start_date.key > end_date.key then
    .error "Start date must be before or equal to end date"
  else if (end_date.toSeconds - start_date.toSeconds).fdiv 86400 > 365 then
    .error "Date range cannot exceed 1 year"
  else if start_date.year < 2010 then
    .error "Data is only available from 2010 onwards"
  else .ok ()

/-- A raw CME analysis sub-record (a duck-typed dict; `Option.none`
means the key is absent, `dict.get` then yields Python `None`). -/
structure RawAnalysis where
  speed : Option PyVal
  type : Option PyVal
  principalAngle : Option PyVal
  latitude : Option PyVal
  longitude : Option PyVal
deriving DecidableEq, Repr

/-- A raw CME record from the DONKI feed. -/
structure RawCme where
  activityID : Option String
  startTime : Option String
  cmeAnalyses : Option (List RawAnalysis)
deriving DecidableEq, Repr

/-- One sample of a GST record's `allKpIndex` list. -/
structure KpEntry where
  kpIndex : Option PyVal
deriving DecidableEq, Repr

/-- One entry of a GST record's `linkedEvents` list. -/
structure LinkedEventRef where
  activityID : Option String
deriving DecidableEq, Repr

/-- A raw GST record from the DONKI feed. -/
structure RawGst where
  gstID : Option String
  startTime : Option String
  allKpIndex : Option (List KpEntry)
  linkedEvents : Option (List LinkedEventRef)
deriving DecidableEq, Repr

/-- A row of the processed CME table (`process_cme_data` output). -/
structure CmeRow where
  cmeID : Option String
  cmeStartTime : Option Int
  speed : FloatVal
  type : PyVal
  angle : FloatVal
  latitude : FloatVal
  longitude : FloatVal
deriving DecidableEq, Repr

/-- `dict.get(key)` with no default: an absent key yields Python `None`. -/
def optVal (o : Option PyVal) : PyVal :=
  o.getD .vnone

/-- `cme.get("cmeAnalyses", [{}])[0]`: missing key falls back to the
one-empty-dict default list, an explicit empty list raises `IndexError`. -/
def firstAnalysis : Option (List RawAnalysis) → Except PyErr RawAnalysis
  | Option.none => .ok ⟨Option.none, Option.none, Option.none, Option.none, Option.none⟩
  | some [] => .error .indexError
  | some (a :: _) => .ok a

/-- The per-record body of the `process_cme_data` loop. -/
def processOneCme (cme : RawCme) : Except PyErr CmeRow := do
  let analysis ← firstAnalysis cme.cmeAnalyses
  let st ← to_datetime_opt cme.startTime
  pure
    { cmeID := cme.activityID
      cmeStartTime := st
      speed := safe_float_convert (optVal analysis.speed) .nan
      type := (analysis.type).getD (.vstr "Unknown")
      angle := safe_float_convert (optVal analysis.principalAngle) .nan
      latitude := safe_float_convert (optVal analysis.latitude) .nan
      longitude := safe_float_convert (optVal analysis.longitude) .nan }

/-- `process_cme_data(cme_data)`: normalize each raw CME record in
order; an exception in one record aborts the batch. -/
def process_cme_data : List RawCme → Except PyErr (List CmeRow)
  | [] => .ok []
  | c :: cs => do
      let r ← processOneCme c
      let rest ← process_cme_data cs
      pure (r :: rest)

/-- A row of the combined linked table (`process_gst_data` output). -/
structure LinkedRow where
  cmeID : String
  cmeStartTime : Option Int
  gstID : Option String
  gstStartTime : Option Int
  timeDifferenceHours : FloatVal
  kpIndex : PyVal
  speed : FloatVal
  type : PyVal
  angle : FloatVal
  latitude : FloatVal
  longitude : FloatVal
deriving DecidableEq, Repr

/-- `(gst_time - cme_time).total_seconds() / 3600`; `NaT` on either side
propagates to NaN. -/
def timeDiffHours : Option Int → Option Int → FloatVal
  | some g, some c => .num (((g - c : Int) : Rat) / 3600)
  | _, _ => .nan

/-- `gst.get("allKpIndex", [{}])[0].get("kpIndex", 0)`: an absent key
falls back to the default list (whose first entry yields the default 0),
a present empty list raises `IndexError`. -/
def kpOfGst : Option (List KpEntry) → Except PyErr PyVal
  | Option.none => .ok ((KpEntry.mk Option.none).kpIndex.getD (.vnum (.num 0)))
  | some [] => .error .indexError
  | some (k :: _) => .ok (k.kpIndex.getD (.vnum (.num 0)))

/-- Pattern is a prefix of the input. -/
def listHasPrefix : List Char → List Char → Bool
  | [], _ => true
  | _ :: _, [] => false
  | p :: ps, c :: cs => p = c && listHasPrefix ps cs

/-- Pattern occurs somewhere in the input. -/
def listHasInfix (pat : List Char) : List Char → Bool
  | [] => listHasPrefix pat []
  | c :: cs => listHasPrefix pat (c :: cs) || listHasInfix pat cs

/-- `"-CME-" in s`: substring containment. -/
def containsCmeMarker (s : String) : Bool :=
  listHasInfix ['-', 'C', 'M', 'E', '-'] s.toList

/-- The body of the inner `for event in gst.get("linkedEvents", [])`
loop: emit a linked row when the activity id carries the CME marker and
a first matching row exists in the CME table; otherwise emit nothing. -/
def linkEvent (cme_df : List CmeRow) (gst_id : Option String) (gst_time : Option Int)
    (kp_index : PyVal) (event : LinkedEventRef) : Option LinkedRow :=
  match event.activityID with
  | Option.none => Option.none
  | some aid =>
      if containsCmeMarker aid then
        match cme_df.find? (fun r => decide (r.cmeID = some aid)) with
        | some cme_row =>
            some
              { cmeID := aid
                cmeStartTime := cme_row.cmeStartTime
                gstID := gst_id
                gstStartTime := gst_time
                timeDifferenceHours := timeDiffHours gst_time cme_row.cmeStartTime
                kpIndex := kp_index
                speed := cme_row.speed
                type := cme_row.type
                angle := cme_row.angle
                latitude := cme_row.latitude
                longitude := cme_row.longitude }
        | Option.none => Option.none
      else Option.none

/-- The per-GST body of the `process_gst_data` loop. -/
def processOneGst (cme_df : List CmeRow) (gst : RawGst) : Except PyErr (List LinkedRow) := do
  let gst_time ← to_datetime_opt gst.startTime
  let kp_index ← kpOfGst gst.allKpIndex
  pure ((gst.linkedEvents.getD []).filterMap (linkEvent cme_df gst.gstID gst_time kp_index))

/-- The `process_gst_data` loop over the GST list. -/
def processGstList (cme_df : List CmeRow) : List RawGst → Except PyErr (List LinkedRow)
  | [] => .ok []
  | g :: gs => do
      let rs ← processOneGst cme_df g
      let rest ← processGstList cme_df gs
      pure (rs ++ rest)

/-- `process_gst_data(gst_data, cme_df)`: link each GST's CME-marked
linked events against the processed CME table. -/
def process_gst_data (gst_data : List RawGst) (cme_df : List CmeRow) :
    Except PyErr (List LinkedRow) :=
  processGstList cme_df gst_data

/-- `RetryHandler.execute_with_retry`, unrolled from attempt index
`attempt`: `outcomes i` is what the `i`-th call of `func` would do;
the result is paired with the list of back-off sleeps performed.
`fuel` counts the loop iterations left (`max_retries - attempt`).
Falling off the loop (`max_retries = 0`) returns Python `None`,
modelled `Option.none`. -/
def runRetry {E A : Type} (outcomes : Nat → Except E A) (base_delay max_retries : Nat) :
    Nat → Nat → Except E (Option A) × List Nat
  | 0, _ => (.ok Option.none, [])
  | fuel + 1, attempt =>
      if attempt < max_retries then
        match outcomes attempt with
        | .ok a => (.ok (some a), [])
        | .error e =>
            if attempt = max_retries - 1 then (.error e, [])
            else
              ((runRetry outcomes base_delay max_retries fuel (attempt + 1)).1,
               base_delay * 2 ^ attempt ::
                 (runRetry outcomes base_delay max_retries fuel (attempt + 1)).2)
      else (.ok Option.none, [])

/-- `RetryHandler(max_retries, base_delay).execute_with_retry(func)`. -/
def execute_with_retry {E A : Type} (max_retries base_delay : Nat) (outcomes : Nat → Except E A) :
    Except E (Option A) × List Nat :=
  runRetry outcomes base_delay max_retries max_retries 0

/-- The combined `pandas.DataFrame` built from `LinkedRow` dicts.
A frame built from an empty list has no columns at all — column lookups
on it raise `KeyError`. -/
structure DataFrame where
  rows : List LinkedRow
deriving DecidableEq, Repr

/-- Column order of the combined table, as the row dicts list them. -/
def linkedCols : List String :=
  ["cmeID", "cmeStartTime", "gstID", "gstStartTime", "timeDifferenceHours",
   "kpIndex", "speed", "type", "angle", "latitude", "longitude"]

/-- `df.columns`: inferred from the row dicts, so empty for an empty frame. -/
def DataFrame.columns (df : DataFrame) : List String :=
  if df.rows.isEmpty then [] else linkedCols

/-- `pd.to_numeric(x, errors='coerce')` on one cell. -/
def pdToNumericVal : PyVal → FloatVal
  | .vnum f => f
  | .vbool b => .num (if b then 1 else 0)
  | .vstr s => (pyParseFloat s).getD .nan
  | .vnone => .nan
  | .vlist => .nan
  | .vdict => .nan

/-- The in-place numeric coercion `generate_summary_statistics` applies:
of the five coerced columns only `kpIndex` can hold a non-numeric cell. -/
def coerceRow (r : LinkedRow) : LinkedRow :=
  { r with kpIndex := .vnum (pdToNumericVal r.kpIndex) }

/-- `df[col] = pd.to_numeric(df[col], errors='coerce')` over the numeric
columns (a no-op on an empty frame, which has no columns). -/
def coerceDF (df : DataFrame) : DataFrame :=
  ⟨df.rows.map coerceRow⟩

/-- Read a numeric column out of a (coerced) row. -/
def numField (c : String) (r : LinkedRow) : FloatVal :=
  if c = "speed" then r.speed
  else if c = "kpIndex" then pdToNumericVal r.kpIndex
  else if c = "timeDifferenceHours" then r.timeDifferenceHours
  else if c = "angle" then r.angle
  else if c = "latitude" then r.latitude
  else if c = "longitude" then r.longitude
  else .nan

/-- `df[c]` for a numeric column: `KeyError` when the column is absent. -/
def getNumCol (df : DataFrame) (c : String) : Except PyErr (List FloatVal) :=
  if c ∈ df.columns then .ok (df.rows.map (numField c)) else .error (.keyError c)

/-- The finite values of a column (`pandas` aggregations skip NaN; the
model is restricted to finite data, its intended domain). -/
def finiteVals (l : List FloatVal) : List Rat :=
  l.filterMap fun f =>
    match f with
    | .num q => some q
    | _ => Option.none

/-- `mean` with NaN skipping; NaN on an empty column. -/
def aggMean (l : List FloatVal) : FloatVal :=
  let v := finiteVals l
  if v.isEmpty then .nan else .num (v.sum / (v.length : Rat))

/-- `median` with NaN skipping; NaN on an empty column. -/
def aggMedian (l : List FloatVal) : FloatVal :=
  let v := (finiteVals l).insertionSort (· ≤ ·)
  match v.length with
  | 0 => .nan
  | n + 1 =>
      if (n + 1) % 2 = 1 then .num (v.getD ((n + 1) / 2) 0)
      else .num ((v.getD ((n + 1) / 2 - 1) 0 + v.getD ((n + 1) / 2) 0) / 2)

/-- Sample variance (`ddof = 1`, NaN below two samples).  `pandas`
reports `std`, its square root; the model keeps the square to stay in
exact arithmetic, a strictly monotone recoding on the nonnegatives. -/
def aggVariance (l : List FloatVal) : FloatVal :=
  let v := finiteVals l
  match v.length with
  | 0 => .nan
  | 1 => .nan
  | n + 2 =>
      let m := v.sum / ((n + 2 : Nat) : Rat)
      .num ((v.map (fun x => (x - m) ^ 2)).sum / ((n + 1 : Nat) : Rat))

/-- `min` with NaN skipping; NaN on an empty column. -/
def aggMin (l : List FloatVal) : FloatVal :=
  match finiteVals l with
  | [] => .nan
  | q :: qs => .num (qs.foldl min q)

/-- `max` with NaN skipping; NaN on an empty column. -/
def aggMax (l : List FloatVal) : FloatVal :=
  match finiteVals l with
  | [] => .nan
  | q :: qs => .num (qs.foldl max q)

/-- The `['mean','median','std','min','max']` aggregate of one column
(`std` carried as its square `variance`). -/
structure ColSummary where
  mean : FloatVal
  median : FloatVal
  variance : FloatVal
  min : FloatVal
  max : FloatVal
deriving DecidableEq, Repr

/-- Aggregate one column. -/
def aggOf (l : List FloatVal) : ColSummary :=
  ⟨aggMean l, aggMedian l, aggVariance l, aggMin l, aggMax l⟩

/-- The numeric columns `generate_summary_statistics` coerces and
aggregates. -/
def numericColumns : List String :=
  ["speed", "kpIndex", "angle", "latitude", "longitude"]

/-- The `cme_stats` loop: aggregate each numeric column present. -/
def statsFor (df : DataFrame) : List (String × ColSummary) :=
  numericColumns.filterMap fun c =>
    if c ∈ df.columns then some (c, aggOf (df.rows.map (numField c))) else Option.none

/-- A Pearson correlation `cov / sqrt(var1 * var2)` carried by its three
exact ingredients (sample covariance and the two sample variances over
the pairwise-complete rows). -/
structure CorrParts where
  cov : FloatVal
  var1 : FloatVal
  var2 : FloatVal
deriving DecidableEq, Repr

/-- Pairwise-complete Pearson ingredients of two columns. -/
def corrParts (xs ys : List FloatVal) : CorrParts :=
  let pairs := (xs.zip ys).filterMap fun p =>
    match p.1, p.2 with
    | .num a, .num b => some (a, b)
    | _, _ => Option.none
  match pairs.length with
  | 0 => ⟨.nan, .nan, .nan⟩
  | 1 => ⟨.nan, .nan, .nan⟩
  | n + 2 =>
      let mx := (pairs.map Prod.fst).sum / ((n + 2 : Nat) : Rat)
      let my := (pairs.map Prod.snd).sum / ((n + 2 : Nat) : Rat)
      ⟨.num ((pairs.map (fun p => (p.1 - mx) * (p.2 - my))).sum / ((n + 1 : Nat) : Rat)),
       .num ((pairs.map (fun p => (p.1 - mx) ^ 2)).sum / ((n + 1 : Nat) : Rat)),
       .num ((pairs.map (fun p => (p.2 - my) ^ 2)).sum / ((n + 1 : Nat) : Rat))⟩

/-- The three correlations of `analyze_cme_gst_correlation`. -/
structure Correlations where
  speed_kp : CorrParts
  time_diff_kp : CorrParts
  speed_time_diff : CorrParts
deriving DecidableEq, Repr

/-- `analyze_cme_gst_correlation(combined_df)`. -/
def analyze_cme_gst_correlation (df : DataFrame) : Except PyErr Correlations := do
  let sp ← getNumCol df "speed"
  let kp ← getNumCol df "kpIndex"
  let td ← getNumCol df "timeDifferenceHours"
  pure ⟨corrParts sp kp, corrParts td kp, corrParts sp td⟩

/-- `analyze_propagation_times(combined_df)`. -/
def analyze_propagation_times (df : DataFrame) : Except PyErr ColSummary := do
  let td ← getNumCol df "timeDifferenceHours"
  pure (aggOf td)

/-- `df['cmeID']`. -/
def colCmeID (df : DataFrame) : Except PyErr (List String) :=
  if "cmeID" ∈ df.columns then .ok (df.rows.map (·.cmeID)) else .error (.keyError "cmeID")

/-- `df['gstID']`. -/
def colGstID (df : DataFrame) : Except PyErr (List (Option String)) :=
  if "gstID" ∈ df.columns then .ok (df.rows.map (·.gstID)) else .error (.keyError "gstID")

/-- The `event_counts` block. -/
structure EventCounts where
  total_cmes : Nat
  total_gsts : Nat
  linked_events : Nat
deriving DecidableEq, Repr

/-- The dictionary `generate_summary_statistics` returns. -/
structure Summary where
  cme_statistics : List (String × ColSummary)
  event_counts : EventCounts
  correlations : Correlations
  propagation_times : ColSummary
deriving DecidableEq, Repr

/-- The body of `generate_summary_statistics` after the in-place numeric
coercion, in the source's evaluation order (the `cmeID` unique count is
the first column access that can raise on an empty frame). -/
def summaryBody (df : DataFrame) : Except PyErr Summary := do
  let cme_stats := statsFor df
  let cmeIDs ← colCmeID df
  let gstIDs ← colGstID df
  let corrs ← analyze_cme_gst_correlation df
  let props ← analyze_propagation_times df
  pure
    { cme_statistics := cme_stats
      event_counts :=
        { total_cmes := cmeIDs.dedup.length
          total_gsts := gstIDs.dedup.length
          linked_events := df.rows.length }
      correlations := corrs
      propagation_times := props }

/-- `generate_summary_statistics(combined_df)`: the first component is
the state of the caller's DataFrame afterwards (the numeric coercion
writes through to it), the second the returned statistics or the
exception raised. -/
def generate_summary_statistics (df : DataFrame) : DataFrame × Except PyErr Summary :=
  let df2 := coerceDF df
  (df2, summaryBody df2)

/-- The CME record of the spec's example scenario. -/
def cmeEx : RawCme :=
  { activityID := some "2020-01-01T12:00:00-CME-001"
    startTime := some "2020-01-01T12:00:00"
    cmeAnalyses := some [{ speed := some (.vnum (.num 800)), type := Option.none,
                           principalAngle := Option.none, latitude := Option.none,
                           longitude := Option.none }] }

/-- The GST record of the spec's example scenario. -/
def gstEx : RawGst :=
  { gstID := some "G1"
    startTime := some "2020-01-02T00:00:00"
    allKpIndex := some [⟨some (.vnum (.num 5))⟩]
    linkedEvents := some [⟨some "2020-01-01T12:00:00-CME-001"⟩] }

/-- The processed CME table of the example scenario. -/
def cmeDfEx : List CmeRow :=
  [⟨some "2020-01-01T12:00:00-CME-001", some 1577880000, .num 800, .vstr "Unknown",
    .nan, .nan, .nan⟩]

/-- The linked row of the example scenario (its propagation time left as
the code's subtraction expression). -/
def rowEx : LinkedRow :=
  ⟨"2020-01-01T12:00:00-CME-001", some 1577880000, some "G1", some 1577923200,
   timeDiffHours (some 1577923200) (some 1577880000), .vnum (.num 5), .num 800,
   .vstr "Unknown", .nan, .nan, .nan⟩

/-- A GST record whose `allKpIndex` list is present but empty. -/
def gstEmptyKp : RawGst :=
  { gstID := some "G2"
    startTime := some "2020-01-02T00:00:00"
    allKpIndex := some []
    linkedEvents := some [] }

/-- A GST that starts twelve hours before its linked CME. -/
def gstNeg : RawGst :=
  { gstID := some "G2"
    startTime := some "2020-01-01T00:00:00"
    allKpIndex := Option.none
    linkedEvents := some [⟨some "X-CME-1"⟩] }

/-- The CME row `gstNeg` links to. -/
def cmeRowNeg : CmeRow :=
  ⟨some "X-CME-1", some 1577880000, .num 100, .vstr "C", .nan, .nan, .nan⟩

/-- The linked row `gstNeg` produces: a negative propagation time. -/
def rowNeg : LinkedRow :=
  ⟨"X-CME-1", some 1577880000, some "G2", some 1577836800,
   timeDiffHours (some 1577836800) (some 1577880000), .vnum (.num 0), .num 100,
   .vstr "C", .nan, .nan, .nan⟩

/-- A CME table with two rows sharing one id: the scan must take the first. -/
def cdfDup : List CmeRow :=
  [⟨some "Y-CME-2", some 1577880000, .num 111, .vstr "S", .nan, .nan, .nan⟩,
   ⟨some "Y-CME-2", some 0, .num 999, .vstr "R", .nan, .nan, .nan⟩]

/-- A GST referencing the duplicated CME id. -/
def gstDup : RawGst :=
  { gstID := some "G3"
    startTime := some "2020-01-02T00:00:00"
    allKpIndex := some [⟨some (.vnum (.num 3))⟩]
    linkedEvents := some [⟨some "Y-CME-2"⟩] }

/-- The linked row `gstDup` produces, built from the first duplicate. -/
def rowDup : LinkedRow :=
  ⟨"Y-CME-2", some 1577880000, some "G3", some 1577923200,
   timeDiffHours (some 1577923200) (some 1577880000), .vnum (.num 3), .num 111,
   .vstr "S", .nan, .nan, .nan⟩

/-- An analysis sub-record whose `speed` cell is a non-numeric string. -/
def analysisBad : RawAnalysis :=
  { speed := some (.vstr "fast"), type := Option.none, principalAngle := Option.none,
    latitude := Option.none, longitude := Option.none }

/-- A one-row frame whose raw `kpIndex` cell is a numeric string. -/
def dfKpStr : DataFrame :=
  ⟨[⟨"A-CME-1", Option.none, Option.none, Option.none, .nan, .vstr "5", .nan,
     .vstr "Unknown", .nan, .nan, .nan⟩]⟩

/-- The same frame with the `kpIndex` cell already numeric. -/
def dfKpNum : DataFrame :=
  ⟨[⟨"A-CME-1", Option.none, Option.none, Option.none, .nan, .vnum (.num 5), .nan,
     .vstr "Unknown", .nan, .nan, .nan⟩]⟩

/-- Bind on `Except` after a success. -/
theorem exbind_ok {E A B : Type} (a : A) (f : A → Except E B) :
    (Except.ok a >>= f) = f a := rfl

/-- Bind on `Except` after a failure. -/
theorem exbind_err {E A B : Type} (e : E) (f : A → Except E B) :
    ((Except.error e : Except E A) >>= f) = Except.error e := rfl

/-- Characterization of an emitted linked row: its GST fields are the
loop's, and its CME fields come from the first matching row of the CME
table. -/
theorem linkEvent_some {cme_df : List CmeRow} {gid : Option String} {gt : Option Int}
    {kp : PyVal} {ev : LinkedEventRef} {row : LinkedRow}
    (h : linkEvent cme_df gid gt kp ev = some row) :
    row.gstID = gid ∧ row.gstStartTime = gt ∧ row.kpIndex = kp ∧
    ∃ cme_row, cme_df.find? (fun r => decide (r.cmeID = some row.cmeID)) = some cme_row ∧
      row.cmeStartTime = cme_row.cmeStartTime ∧
      row.timeDifferenceHours = timeDiffHours gt cme_row.cmeStartTime ∧
      row.speed = cme_row.speed ∧ row.type = cme_row.type ∧ row.angle = cme_row.angle ∧
      row.latitude = cme_row.latitude ∧ row.longitude = cme_row.longitude := by
  unfold linkEvent at h
  split at h
  · exact Option.noConfusion h
  · split at h
    · split at h
      · next cme_row hf =>
          injection h with h
          subst h
          exact ⟨rfl, rfl, rfl, cme_row, hf, rfl, rfl, rfl, rfl, rfl, rfl, rfl⟩
      · exact Option.noConfusion h
    · exact Option.noConfusion h

/-- Every row of a successful `process_gst_data` run was emitted by some
iteration of the inner linked-event loop. -/
theorem mem_processGstList {cme_df : List CmeRow} :
    ∀ {gs : List RawGst} {rows : List LinkedRow}, processGstList cme_df gs = .ok rows →
      ∀ {row : LinkedRow}, row ∈ rows →
        ∃ gid gt kp ev, linkEvent cme_df gid gt kp ev = some row := by
  intro gs
  induction gs with
  | nil =>
      intro rows h row hrow
      injection h with h
      subst h
      simp at hrow
  | cons g gs ih =>
      intro rows h row hrow
      rw [processGstList] at h
      cases h1 : processOneGst cme_df g with
      | error e => rw [h1, exbind_err] at h; exact Except.noConfusion h
      | ok rs =>
          rw [h1, exbind_ok] at h
          cases h2 : processGstList cme_df gs with
          | error e => rw [h2, exbind_err] at h; exact Except.noConfusion h
          | ok rest =>
              rw [h2, exbind_ok] at h
              have h' : (Except.ok (rs ++ rest) : Except PyErr (List LinkedRow)) =
                  Except.ok rows := h
              injection h' with h'
              subst h'
              rcases List.mem_append.mp hrow with hl | hr
              · unfold processOneGst at h1
                cases h3 : to_datetime_opt g.startTime with
                | error e => rw [h3, exbind_err] at h1; exact Except.noConfusion h1
                | ok gt =>
                    rw [h3, exbind_ok] at h1
                    cases h4 : kpOfGst g.allKpIndex with
                    | error e => rw [h4, exbind_err] at h1; exact Except.noConfusion h1
                    | ok kp =>
                        rw [h4, exbind_ok] at h1
                        have h1' : (Except.ok ((g.linkedEvents.getD []).filterMap
                              (linkEvent cme_df g.gstID gt kp)) :
                            Except PyErr (List LinkedRow)) = Except.ok rs := h1
                        injection h1' with h1'
                        subst h1'
                        obtain ⟨ev, _, hlink⟩ := List.mem_filterMap.mp hl
                        exact ⟨g.gstID, gt, kp, ev, hlink⟩
              · exact ih h2 hr

/-- C2: the `time_difference_hours` of every emitted linked row equals
the timestamp subtraction `(gst_time - cme_time)` in hours, held exactly
(so in particular within any positive tolerance), with no sign filter
applied anywhere. -/
theorem C2_time_difference_exact (gst_data : List RawGst) (cme_df : List CmeRow)
    (rows : List LinkedRow) (row : LinkedRow) (g c : Int)
    (hok : process_gst_data gst_data cme_df = .ok rows) (hmem : row ∈ rows)
    (hg : row.gstStartTime = some g) (hc : row.cmeStartTime = some c) :
    row.timeDifferenceHours = .num (((g - c : Int) : Rat) / 3600) := by
  obtain ⟨gid, gt, kp, ev, hlink⟩ := mem_processGstList hok hmem
  obtain ⟨_, hgt, _, cme_row, _, hct, htd, _⟩ := linkEvent_some hlink
  rw [htd, hgt.symm.trans hg, hct.symm.trans hc]
  rfl

/-- Witness for C2: a GST twelve hours before its linked CME yields an
emitted row whose propagation time is the negative value `-12`. -/
theorem C2_time_difference_exact_witness :
    process_gst_data [gstNeg] [cmeRowNeg] = .ok [rowNeg] ∧
    rowNeg.timeDifferenceHours = .num (-12) := by
  constructor
  · rfl
  · have h := C2_time_difference_exact [gstNeg] [cmeRowNeg] [rowNeg] rowNeg
      1577836800 1577880000 rfl (by simp) rfl rfl
    rw [h]
    norm_num

/-- C7: every emitted row draws its CME fields from the first row of the
CME table whose id matches (`find?` scans the table top-down), so with
duplicate ids the first record wins. -/
theorem C7_first_match_wins (gst_data : List RawGst) (cme_df : List CmeRow)
    (rows : List LinkedRow) (row : LinkedRow)
    (hok : process_gst_data gst_data cme_df = .ok rows) (hmem : row ∈ rows) :
    ∃ cme_row, cme_df.find? (fun r => decide (r.cmeID = some row.cmeID)) = some cme_row ∧
      row.cmeStartTime = cme_row.cmeStartTime ∧ row.speed = cme_row.speed ∧
      row.type = cme_row.type ∧ row.angle = cme_row.angle ∧
      row.latitude = cme_row.latitude ∧ row.longitude = cme_row.longitude := by
  obtain ⟨gid, gt, kp, ev, hlink⟩ := mem_processGstList hok hmem
  obtain ⟨_, _, _, cme_row, hf, hct, _, hs, hty, han, hla, hlo⟩ := linkEvent_some hlink
  exact ⟨cme_row, hf, hct, hs, hty, han, hla, hlo⟩

/-- Witness for C7: with two table rows sharing one id, the emitted row
carries the first row's speed 111, not the second's 999. -/
theorem C7_first_match_wins_witness :
    process_gst_data [gstDup] cdfDup = .ok [rowDup] ∧ rowDup.speed = .num 111 ∧
    (∃ cme_row,
      cdfDup.find? (fun r => decide (r.cmeID = some rowDup.cmeID)) = some cme_row ∧
      rowDup.cmeStartTime = cme_row.cmeStartTime ∧ rowDup.speed = cme_row.speed ∧
      rowDup.type = cme_row.type ∧ rowDup.angle = cme_row.angle ∧
      rowDup.latitude = cme_row.latitude ∧ rowDup.longitude = cme_row.longitude) :=
  ⟨rfl, rfl, C7_first_match_wins [gstDup] cdfDup [rowDup] rowDup rfl (by simp)⟩

/-- A cell that is Python `None` or whose float conversion fails turns
into the supplied default. -/
theorem safe_float_convert_default (v : PyVal) (d : FloatVal)
    (h : v = .vnone ∨ ∃ er, float_builtin v = .error er) :
    safe_float_convert v d = d := by
  rcases h with h | ⟨er, h⟩
  · subst h; rfl
  · unfold safe_float_convert
    split_ifs with hv
    · rfl
    · rw [h]

/-- C10: `safe_float_convert` is total: every input yields a float, with
`None` and every failing conversion mapped to the default (the source's
default parameter is `float('nan')`) and every convertible value mapped
to its `float(...)` conversion. -/
theorem C10_safe_float_convert_total (v : PyVal) (d : FloatVal) :
    safe_float_convert v d =
      match float_builtin v with
      | .ok f => f
      | .error _ => d := by
  cases v with
  | vstr s =>
      simp only [safe_float_convert, float_builtin]
      cases pyParseFloat s <;> simp
  | _ => rfl

/-- C3: a GST whose `allKpIndex` list is present but empty makes
`process_gst_data` raise `IndexError` (the `[{}]` fallback only covers
an absent key), contradicting the documented fallback to 0. -/
theorem C3_empty_kp_list_raises :
    process_gst_data [gstEmptyKp] [] = .error .indexError := rfl

/-- C1: the spec's example scenario: the single GST linked against the
single CME yields exactly one row with a 12-hour propagation time,
Kp index 5 and speed 800. -/
theorem C1_example_scenario :
    process_cme_data [cmeEx] = .ok cmeDfEx ∧
    process_gst_data [gstEx] cmeDfEx = .ok [rowEx] ∧
    rowEx.timeDifferenceHours = .num 12 ∧ rowEx.kpIndex = .vnum (.num 5) ∧
    rowEx.speed = .num 800 := by
  refine ⟨rfl, rfl, ?_, rfl, rfl⟩
  show timeDiffHours (some 1577923200) (some 1577880000) = .num 12
  unfold timeDiffHours
  norm_num

/-- C4 fails as stated: a 365.5-day range is accepted although it
exceeds 365 days, because the code compares the floored
`timedelta.days` with 365. -/
theorem C4_counterexample :
    PyDatetime.valid ⟨2020, 1, 1, 0, 0, 0⟩ ∧ PyDatetime.valid ⟨2020, 12, 31, 12, 0, 0⟩ ∧
    validate_date_range ⟨2020, 1, 1, 0, 0, 0⟩ ⟨2020, 12, 31, 12, 0, 0⟩ = .ok () ∧
    365 * 86400 <
      PyDatetime.toSeconds ⟨2020, 12, 31, 12, 0, 0⟩ -
        PyDatetime.toSeconds ⟨2020, 1, 1, 0, 0, 0⟩ :=
  ⟨by decide, by decide, rfl, by decide⟩

/-- C4 amended: `validate_date_range` accepts exactly when start is not
after end, the floor of the range in whole days is at most 365, and the
start year is at least 2010; in every other case it raises
`DateRangeError`. -/
theorem C4_accept_iff (s e : PyDatetime) (_hs : s.valid) (_he : e.valid) :
    validate_date_range s e = .ok () ↔
      s.key ≤ e.key ∧ (e.toSeconds - s.toSeconds).fdiv 86400 ≤ 365 ∧ 2010 ≤ s.year := by
  unfold validate_date_range
  constructor
  · intro h
    split_ifs at h with h1 h2 h3
    all_goals first
      | exact Except.noConfusion h
      | exact ⟨Nat.not_lt.mp h1, Int.not_lt.mp h2, Nat.not_lt.mp h3⟩
  · intro h
    obtain ⟨ha, hb, hc⟩ := h
    split_ifs with h1 h2 h3
    · exact absurd ha (Nat.not_le.mpr h1)
    · exact absurd hb (Int.not_le.mpr h2)
    · exact absurd hc (Nat.not_le.mpr h3)
    · rfl

/-- Witness for C4: a five-month 2020 range is accepted. -/
theorem C4_accept_iff_witness :
    validate_date_range ⟨2020, 1, 1, 0, 0, 0⟩ ⟨2020, 6, 1, 0, 0, 0⟩ = .ok () :=
  (C4_accept_iff ⟨2020, 1, 1, 0, 0, 0⟩ ⟨2020, 6, 1, 0, 0, 0⟩ (by decide) (by decide)).mpr
    ⟨by decide, by decide, by decide⟩

/-- C5 fails as stated: on an empty linked dataset the aggregator raises
`KeyError('cmeID')` (an empty frame has no columns) instead of
returning zero counts. -/
theorem C5_counterexample :
    generate_summary_statistics ⟨[]⟩ = (⟨[]⟩, .error (.keyError "cmeID")) := rfl

/-- C5 amended: on every empty linked dataset the aggregator raises
`KeyError('cmeID')` at the distinct-CME count rather than returning a
statistics object. -/
theorem C5_empty_input_raises (df : DataFrame) (h : df.rows = []) :
    (generate_summary_statistics df).2 = .error (.keyError "cmeID") := by
  cases df with
  | mk rows => cases h; rfl

/-- Witness for C5 at the empty frame. -/
theorem C5_empty_input_raises_witness :
    (generate_summary_statistics ⟨[]⟩).2 = .error (.keyError "cmeID") :=
  C5_empty_input_raises ⟨[]⟩ rfl

/-- C6: a CME record with no `cmeAnalyses` key normalizes to a row with
NaN speed, angle, latitude and longitude (type `"Unknown"`) instead of
raising, and a `None` or unconvertible `speed` cell inside a present
analysis becomes NaN without aborting the batch. -/
theorem C6_missing_or_bad_analysis (aid st : Option String) (t : Option Int)
    (a : RawAnalysis) (rest : List RawAnalysis)
    (hst : to_datetime_opt st = .ok t)
    (hbad : optVal a.speed = .vnone ∨ ∃ er, float_builtin (optVal a.speed) = .error er) :
    process_cme_data [⟨aid, st, Option.none⟩] =
      .ok [⟨aid, t, .nan, .vstr "Unknown", .nan, .nan, .nan⟩] ∧
    ∃ r, process_cme_data [⟨aid, st, some (a :: rest)⟩] = .ok [r] ∧ r.speed = .nan := by
  have hone : processOneCme ⟨aid, st, Option.none⟩ =
      .ok ⟨aid, t, .nan, .vstr "Unknown", .nan, .nan, .nan⟩ := by
    unfold processOneCme
    dsimp only [firstAnalysis, exbind_ok]
    rw [hst, exbind_ok]
    rfl
  have hone2 : processOneCme ⟨aid, st, some (a :: rest)⟩ =
      .ok ⟨aid, t, safe_float_convert (optVal a.speed) .nan, a.type.getD (.vstr "Unknown"),
        safe_float_convert (optVal a.principalAngle) .nan,
        safe_float_convert (optVal a.latitude) .nan,
        safe_float_convert (optVal a.longitude) .nan⟩ := by
    unfold processOneCme
    dsimp only [firstAnalysis, exbind_ok]
    rw [hst, exbind_ok]
    rfl
  constructor
  · simp only [process_cme_data, hone, exbind_ok]
    rfl
  · refine ⟨⟨aid, t, safe_float_convert (optVal a.speed) .nan, a.type.getD (.vstr "Unknown"),
      safe_float_convert (optVal a.principalAngle) .nan,
      safe_float_convert (optVal a.latitude) .nan,
      safe_float_convert (optVal a.longitude) .nan⟩, ?_, ?_⟩
    · simp only [process_cme_data, hone2, exbind_ok]
      rfl
    · exact safe_float_convert_default _ _ hbad

/-- Witness for C6: a record without analyses and a record whose speed
cell is the unconvertible string `"fast"`. -/
theorem C6_missing_or_bad_analysis_witness :
    process_cme_data [⟨some "W-CME-9", Option.none, Option.none⟩] =
      .ok [⟨some "W-CME-9", Option.none, .nan, .vstr "Unknown", .nan, .nan, .nan⟩] ∧
    ∃ r, process_cme_data [⟨some "W-CME-9", Option.none, some (analysisBad :: [])⟩] =
      .ok [r] ∧ r.speed = .nan :=
  C6_missing_or_bad_analysis (some "W-CME-9") Option.none Option.none analysisBad []
    rfl (Or.inr ⟨.valueError, rfl⟩)

/-- The retry loop never consults an outcome at or beyond `max_retries`:
runs agree whenever the first `max_retries` outcomes agree. -/
theorem runRetry_congr {E A : Type} (o1 o2 : Nat → Except E A) (b mr : Nat)
    (h : ∀ i, i < mr → o1 i = o2 i) :
    ∀ fuel a, runRetry o1 b mr fuel a = runRetry o2 b mr fuel a := by
  intro fuel
  induction fuel with
  | zero => intro a; rfl
  | succ fuel ih =>
      intro a
      rw [runRetry, runRetry]
      by_cases hc : a < mr
      · rw [if_pos hc, if_pos hc, h a hc]
        cases o2 a with
        | ok x => rfl
        | error e =>
            dsimp only
            rw [ih (a + 1)]
      · rw [if_neg hc, if_neg hc]

/-- When every attempt up to exhaustion fails, the loop sleeps
`base_delay * 2 ^ attempt` between consecutive attempts and re-raises
the final attempt's error. -/
theorem runRetry_exhaust {E A : Type} (o : Nat → Except E A) (e : Nat → E) (b mr : Nat)
    (h : ∀ i, i < mr → o i = .error (e i)) :
    ∀ fuel a, a + fuel = mr → a < mr →
      runRetry o b mr fuel a =
        (.error (e (mr - 1)), (List.range' a (mr - 1 - a)).map fun i => b * 2 ^ i) := by
  intro fuel
  induction fuel with
  | zero => intro a ha hlt; omega
  | succ fuel ih =>
      intro a ha hlt
      rw [runRetry, if_pos hlt, h a hlt]
      dsimp only
      by_cases hl : a = mr - 1
      · subst hl
        rw [if_pos rfl, Nat.sub_self]
        rfl
      · rw [if_neg hl, ih (a + 1) (by omega) (by omega)]
        have h2 : mr - 1 - a = (mr - 1 - (a + 1)) + 1 := by omega
        rw [h2]
        rfl

/-- C8: the retry wrapper makes at most `max_retries` attempts (its
result never depends on later outcomes), sleeps `base_delay * 2 ^
attempt` between consecutive attempts, and after the final failed
attempt re-raises that failure instead of retrying further. -/
theorem C8_retry_contract :
    (∀ (E A : Type) (mr b : Nat) (o1 o2 : Nat → Except E A),
        (∀ i, i < mr → o1 i = o2 i) →
        execute_with_retry mr b o1 = execute_with_retry mr b o2) ∧
    (∀ (E A : Type) (mr b : Nat) (o : Nat → Except E A) (e : Nat → E),
        1 ≤ mr → (∀ i, i < mr → o i = .error (e i)) →
        execute_with_retry mr b o =
          (.error (e (mr - 1)), (List.range (mr - 1)).map fun i => b * 2 ^ i)) := by
  constructor
  · intro E A mr b o1 o2 h
    exact runRetry_congr o1 o2 b mr h mr 0
  · intro E A mr b o e h1 h
    have hx := runRetry_exhaust o e b mr h mr 0 (by omega) (by omega)
    rw [execute_with_retry, hx, Nat.sub_zero, List.range_eq_range']

/-- Witness for C8: three attempts that all fail produce the final
error after sleeping 1 then 2 seconds. -/
theorem C8_retry_contract_witness :
    execute_with_retry 3 1 (fun _ => (Except.error "boom" : Except String Unit)) =
      (.error "boom", [1, 2]) := by
  have h := C8_retry_contract.2 String Unit 3 1 (fun _ => .error "boom") (fun _ => "boom")
    (by omega) (fun i _ => rfl)
  rw [h]
  rfl

/-- A row whose raw `kpIndex` cell is already numeric is a fixed point
of the aggregator's in-place coercion. -/
theorem coerceRow_id (r : LinkedRow) (f : FloatVal) (hf : r.kpIndex = .vnum f) :
    coerceRow r = r := by
  unfold coerceRow
  rw [hf]
  dsimp only [pdToNumericVal]
  rw [← hf]

/-- Lifting `coerceRow_id` over a whole row list. -/
theorem map_coerceRow_id (rows : List LinkedRow)
    (h : ∀ r ∈ rows, ∃ f, r.kpIndex = .vnum f) : rows.map coerceRow = rows := by
  induction rows with
  | nil => rfl
  | cons r rs ih =>
      obtain ⟨f, hf⟩ := h r (List.mem_cons_self r rs)
      rw [List.map_cons, coerceRow_id r f hf,
        ih (fun x hx => h x (List.mem_cons_of_mem r hx))]

/-- C9 fails as stated: the aggregator coerces its input's numeric
columns in place, so a caller's frame holding a string Kp cell differs
after `generate_summary_statistics`. -/
theorem C9_counterexample : (generate_summary_statistics dfKpStr).1 ≠ dfKpStr := by
  simp [generate_summary_statistics, coerceDF, coerceRow, dfKpStr]

/-- C9 amended: the other stages build fresh records (and the exporter
works on a copy), but `generate_summary_statistics` writes its numeric
coercion through to the caller's frame; the input is left unchanged
exactly on frames whose `kpIndex` cells are already numeric. -/
theorem C9_summarize_preserves_numeric_frames (df : DataFrame)
    (h : ∀ r ∈ df.rows, ∃ f, r.kpIndex = .vnum f) :
    (generate_summary_statistics df).1 = df := by
  show coerceDF df = df
  unfold coerceDF
  rw [map_coerceRow_id df.rows h]

/-- Witness for C9: a frame with a numeric Kp cell passes through the
aggregator unchanged. -/
theorem C9_summarize_preserves_numeric_frames_witness :
    (generate_summary_statistics dfKpNum).1 = dfKpNum :=
  C9_summarize_preserves_numeric_frames dfKpNum
    (by intro r hr; simp [dfKpNum] at hr; subst hr; exact ⟨.num 5, rfl⟩)

end NasaDonki
